import Mathlib

/-!
Shallow embedding of the Dumroo admin-panel application (`src/main.py`)
and proofs of the specification's claims about it.

The application is a Streamlit front end over a pandas DataFrame of
student records.  We embed the DataFrame as a `List StudentRecord`,
role labels as the `String`s the code compares against, and the
fallible external LLM agent call as an `Except` value supplied as a
parameter.
-/

namespace Dumroo

/-- One row of the student table (`data.json` record after loading).
`quiz_date` is `Option Nat` because `pd.to_datetime(..., errors='coerce')`
turns unparseable date strings into the missing marker `NaT`. -/
structure StudentRecord where
  student_id : Nat
  name : String
  grade : Int
  «class» : String
  region : String
  quiz_date : Option Nat
  quiz_score : Int
deriving DecidableEq, Repr

/-- One raw record of the source JSON file, before the
`pd.to_datetime` conversion: the quiz date is still a string. -/
structure RawRecord where
  student_id : Nat
  name : String
  grade : Int
  «class» : String
  region : String
  quiz_date : String
  quiz_score : Int
deriving DecidableEq, Repr

/-- Result of `filter_data_by_role`: the returned rows together with
the warning signal (`st.warning` on the unknown-role branch). -/
structure FilterResult where
  rows : List StudentRecord
  warned : Bool
deriving DecidableEq, Repr

/-- Embedding of `filter_data_by_role(df, admin_role)` from
`src/main.py` lines 45–71.  The if/elif chain compares the role label
against the five known strings; pandas boolean-mask selection
`df[df['col'] == v]` is `List.filter`.  The final `else` branch calls
`st.warning` and returns an empty DataFrame; the `warned` flag records
that signal. -/
def filter_data_by_role (df : List StudentRecord) (admin_role : String) :
    FilterResult :=
  let filtered_df := df
  if admin_role = "Super Admin" then
    { rows := filtered_df, warned := false }
  else if admin_role = "Grade 8 Admin" then
    { rows := filtered_df.filter (fun r => r.grade == 8), warned := false }
  else if admin_role = "Grade 9 Admin" then
    { rows := filtered_df.filter (fun r => r.grade == 9), warned := false }
  else if admin_role = "8A Class Admin" then
    { rows := filtered_df.filter (fun r => r.«class» == "8A"), warned := false }
  else if admin_role = "North Region Admin" then
    { rows := filtered_df.filter (fun r => r.region == "North"), warned := false }
  else
    { rows := [], warned := true }

/-- State-passing embedding of the same call, threading the caller's
table explicitly: the first component is the caller's `df` as it stands
after the call.  `filtered_df = df.copy()` on line 50 makes
`filtered_df` a fresh copy, and every later statement assigns only to
the local `filtered_df`, never through to `df`. -/
def filter_data_by_role_run (df : List StudentRecord) (admin_role : String) :
    List StudentRecord × FilterResult :=
  let filtered_df := df
  if admin_role = "Super Admin" then
    (df, { rows := filtered_df, warned := false })
  else if admin_role = "Grade 8 Admin" then
    (df, { rows := filtered_df.filter (fun r => r.grade == 8), warned := false })
  else if admin_role = "Grade 9 Admin" then
    (df, { rows := filtered_df.filter (fun r => r.grade == 9), warned := false })
  else if admin_role = "8A Class Admin" then
    (df, { rows := filtered_df.filter (fun r => r.«class» == "8A"), warned := false })
  else if admin_role = "North Region Admin" then
    (df, { rows := filtered_df.filter (fun r => r.region == "North"), warned := false })
  else
    (df, { rows := [], warned := true })

/-- The five role labels offered by the UI (`admin_roles` in `main`,
lines 161–167). -/
def admin_roles : List String :=
  ["Super Admin", "Grade 8 Admin", "Grade 9 Admin",
   "8A Class Admin", "North Region Admin"]

/-- A chat-history entry: `HumanMessage` or `AIMessage` from
`langchain_core.messages`, carrying its content string. -/
inductive ChatMessage where
  | human (content : String)
  | ai (content : String)
deriving DecidableEq, Repr

/-- Outcome of the external agent's `agent.invoke` call: either the
answer string `response["output"]`, or the raised exception's message. -/
def AgentOutcome : Type := Except String String

/-- Embedding of the try/except body of `get_ai_response` (`src/main.py`
lines 122–142).  The external `agent.invoke(full_input)` outcome is the
parameter `agent_outcome`.  On success the question and answer are
appended to `st.session_state.chat_history` (as one `HumanMessage` then
one `AIMessage`) and the answer is returned; on any exception the
handler shows an error message, leaves the history unchanged and
returns the fixed string `"Error processing query."`.  The result is
the returned string paired with the chat history after the call. -/
def get_ai_response (agent_outcome : AgentOutcome) (query : String)
    (chat_history : List ChatMessage) : String × List ChatMessage :=
  match agent_outcome with
  | .ok output =>
      (output, chat_history ++ [ChatMessage.human query, ChatMessage.ai output])
  | .error _ =>
      ("Error processing query.", chat_history)

/-- What `main`'s "Get Answer" button handler does on one submission
(`src/main.py` lines 195–205). -/
inductive QueryAction where
  /-- `get_ai_response(filtered_df, user_query)` is invoked with this
  table and query. -/
  | askAgent (table : List StudentRecord) (query : String)
  /-- `st.warning("Cannot answer query: No data available ...")`. -/
  | warnNoData
  /-- `st.warning("Please enter a question.")`. -/
  | warnEmptyQuery
deriving DecidableEq, Repr

/-- Embedding of `main`'s query-submission path (`src/main.py` lines
180–205): `filtered_df = filter_data_by_role(df, selected_role)` is
computed from the loaded table and the selected role, and on the button
press the agent is invoked on `filtered_df` only when the query is
non-empty and `filtered_df` is non-empty. -/
def main_query_step (df : List StudentRecord) (selected_role : String)
    (user_query : String) : QueryAction :=
  let filtered_df := (filter_data_by_role df selected_role).rows
  if user_query ≠ "" then
    if ¬ filtered_df.isEmpty then
      QueryAction.askAgent filtered_df user_query
    else
      QueryAction.warnNoData
  else
    QueryAction.warnEmptyQuery

/-- The per-record part of `load_data` (`src/main.py` lines 27–36):
`pd.DataFrame(data)` keeps every field of every record, and
`pd.to_datetime(df['quiz_date'], errors='coerce')` replaces each quiz
date string by its parsed value, or by the missing marker `NaT`
(`none`) when it cannot be parsed.  The pandas date parser is external
to the repository, so it is the parameter `parse`; `errors='coerce'`
is the fact that a failed parse yields `none` instead of raising. -/
def convert_record (parse : String → Option Nat) (r : RawRecord) :
    StudentRecord :=
  { student_id := r.student_id
    name := r.name
    grade := r.grade
    «class» := r.«class»
    region := r.region
    quiz_date := parse r.quiz_date
    quiz_score := r.quiz_score }

/-- Embedding of `load_data` on a well-formed source file: the decoded
JSON records become the table, with the quiz-date column converted
through `parse` with coercion of failures to the missing marker. -/
def load_data (parse : String → Option Nat) (data : List RawRecord) :
    List StudentRecord :=
  data.map (convert_record parse)

/-- A concrete grade-8, class-8A, North-region row (from the spec's
concrete scenario), used by the witnesses. -/
def sampleA : StudentRecord :=
  { student_id := 1, name := "a", grade := 8, «class» := "8A",
    region := "North", quiz_date := some 0, quiz_score := 90 }

/-- A concrete grade-9, class-9B, South-region row, used by the
witnesses. -/
def sampleB : StudentRecord :=
  { student_id := 2, name := "b", grade := 9, «class» := "9B",
    region := "South", quiz_date := some 1, quiz_score := 80 }

/-- A concrete raw record with a parseable date string. -/
def rawA : RawRecord :=
  { student_id := 1, name := "a", grade := 8, «class» := "8A",
    region := "North", quiz_date := "2025-07-01", quiz_score := 90 }

/-- A concrete raw record with an unparseable date string. -/
def rawB : RawRecord :=
  { student_id := 2, name := "b", grade := 9, «class» := "9B",
    region := "South", quiz_date := "not-a-date", quiz_score := 80 }

/-- A concrete date parser standing in for `pd.to_datetime` in the
witnesses: it parses exactly the string "2025-07-01". -/
def parse0 : String → Option Nat :=
  fun s => if s = "2025-07-01" then some 20250701 else none

/-! ### Helper lemmas: the filter on each concrete role label -/

theorem filter_super_eq (df : List StudentRecord) :
    filter_data_by_role df "Super Admin" = { rows := df, warned := false } := rfl

theorem filter_grade8_eq (df : List StudentRecord) :
    filter_data_by_role df "Grade 8 Admin" =
      { rows := df.filter (fun r => r.grade == 8), warned := false } := rfl

theorem filter_grade9_eq (df : List StudentRecord) :
    filter_data_by_role df "Grade 9 Admin" =
      { rows := df.filter (fun r => r.grade == 9), warned := false } := rfl

theorem filter_class8A_eq (df : List StudentRecord) :
    filter_data_by_role df "8A Class Admin" =
      { rows := df.filter (fun r => r.«class» == "8A"), warned := false } := rfl

theorem filter_north_eq (df : List StudentRecord) :
    filter_data_by_role df "North Region Admin" =
      { rows := df.filter (fun r => r.region == "North"), warned := false } := rfl

/-! ### Claim theorems -/

/-- C1: for each restricted role — Grade 8 Admin, Grade 9 Admin,
8A Class Admin, North Region Admin — `filter_data_by_role` returns
exactly the input rows satisfying that role's predicate: every output
row satisfies the predicate (soundness) and every input row satisfying
the predicate appears in the output with identical field values
(completeness). -/
theorem filter_restricted_sound_complete (df : List StudentRecord) :
    ((∀ r ∈ (filter_data_by_role df "Grade 8 Admin").rows, r.grade = 8) ∧
     (∀ r ∈ df, r.grade = 8 → r ∈ (filter_data_by_role df "Grade 8 Admin").rows)) ∧
    ((∀ r ∈ (filter_data_by_role df "Grade 9 Admin").rows, r.grade = 9) ∧
     (∀ r ∈ df, r.grade = 9 → r ∈ (filter_data_by_role df "Grade 9 Admin").rows)) ∧
    ((∀ r ∈ (filter_data_by_role df "8A Class Admin").rows, r.«class» = "8A") ∧
     (∀ r ∈ df, r.«class» = "8A" → r ∈ (filter_data_by_role df "8A Class Admin").rows)) ∧
    ((∀ r ∈ (filter_data_by_role df "North Region Admin").rows, r.region = "North") ∧
     (∀ r ∈ df, r.region = "North" → r ∈ (filter_data_by_role df "North Region Admin").rows)) := by
  refine ⟨⟨?_, ?_⟩, ⟨?_, ?_⟩, ⟨?_, ?_⟩, ?_, ?_⟩ <;>
    simp only [filter_grade8_eq, filter_grade9_eq, filter_class8A_eq,
      filter_north_eq, List.mem_filter, beq_iff_eq] <;>
    intros <;> simp_all

/-- C1 witness: on the spec's concrete three-row table, row 1 (grade 8,
class "8A", region "North") is complete for Grade 8 Admin and every
Grade 8 Admin output row has grade 8. -/
theorem filter_restricted_sound_complete_witness :
    sampleA ∈ (filter_data_by_role [sampleA, sampleB] "Grade 8 Admin").rows :=
  (filter_restricted_sound_complete _).1.2 _ (by simp) (by rfl)

/-- C2: `filter_data_by_role` with the Super Admin role is the
identity: the output rows are the input list itself (same count, same
field values, same order). -/
theorem filter_super_admin_identity (df : List StudentRecord) :
    (filter_data_by_role df "Super Admin").rows = df := rfl

/-- C3: any role label outside the five-element enumeration yields an
empty row set of zero rows together with the warning signal, for every
input table (the function returns normally rather than failing). -/
theorem filter_unknown_role_empty (df : List StudentRecord)
    (admin_role : String) (h : admin_role ∉ admin_roles) :
    (filter_data_by_role df admin_role).rows = [] ∧
    (filter_data_by_role df admin_role).rows.length = 0 ∧
    (filter_data_by_role df admin_role).warned = true := by
  simp only [admin_roles, List.mem_cons, List.not_mem_nil, or_false,
    not_or] at h
  obtain ⟨h1, h2, h3, h4, h5⟩ := h
  simp [filter_data_by_role, h1, h2, h3, h4, h5]

/-- C3 witness: the role "Teacher" on a one-row table gives zero rows
and the warning. -/
theorem filter_unknown_role_empty_witness :
    (filter_data_by_role [sampleA] "Teacher").rows = [] ∧
    (filter_data_by_role [sampleA] "Teacher").rows.length = 0 ∧
    (filter_data_by_role [sampleA] "Teacher").warned = true :=
  filter_unknown_role_empty _ "Teacher" (by decide)

/-- C6: filtering is idempotent: for every role label (known or
unknown) and every table, filtering the already-filtered rows by the
same role yields the same rows. -/
theorem filter_idempotent (df : List StudentRecord) (admin_role : String) :
    (filter_data_by_role (filter_data_by_role df admin_role).rows
        admin_role).rows
      = (filter_data_by_role df admin_role).rows := by
  unfold filter_data_by_role
  split_ifs <;> simp [List.filter_filter, Bool.and_self]

/-- C7: `filter_data_by_role` is pure: deterministic (equal table and
role inputs give equal outputs), total (it is a function returning a
`FilterResult` for every input), and side-effect free (the caller's
table after the call is the table before it; the warning is part of
the returned signal). -/
theorem filter_deterministic_pure (df₁ df₂ : List StudentRecord)
    (r₁ r₂ : String) (hdf : df₁ = df₂) (hr : r₁ = r₂) :
    filter_data_by_role df₁ r₁ = filter_data_by_role df₂ r₂ ∧
    (filter_data_by_role_run df₁ r₁).1 = df₁ := by
  subst hdf; subst hr
  refine ⟨rfl, ?_⟩
  unfold filter_data_by_role_run
  split_ifs <;> rfl

/-- C7 witness: two calls on the same concrete table and role agree,
and the caller's table is unchanged. -/
theorem filter_deterministic_pure_witness :
    filter_data_by_role [sampleA] "Grade 8 Admin" =
        filter_data_by_role [sampleA] "Grade 8 Admin" ∧
    (filter_data_by_role_run [sampleA] "Grade 8 Admin").1 = [sampleA] :=
  filter_deterministic_pure _ _ _ _ rfl rfl

/-- C9: `filter_data_by_role` never mutates its input table: in the
state-passing embedding, for every role (known or unknown) the
caller's table after the call is exactly the table before it. -/
theorem filter_no_mutation (df : List StudentRecord) (admin_role : String) :
    (filter_data_by_role_run df admin_role).1 = df := by
  unfold filter_data_by_role_run
  split_ifs <;> rfl

/-- C4: whenever `main`'s query-submission path invokes the agent, the
table it passes is exactly the role-filtered table
`filter_data_by_role(df, selected_role)` — never the unfiltered `df`
beyond what that filter returns — and that filtered table is
non-empty; the query passed is the user's query. -/
theorem main_invokes_agent_on_filtered (df : List StudentRecord)
    (selected_role user_query : String) (table : List StudentRecord)
    (q : String)
    (h : main_query_step df selected_role user_query =
      QueryAction.askAgent table q) :
    table = (filter_data_by_role df selected_role).rows ∧
    table ≠ [] ∧ q = user_query := by
  unfold main_query_step at h
  dsimp only at h
  split_ifs at h with hq hne
  · rw [QueryAction.askAgent.injEq] at h
    obtain ⟨h1, h2⟩ := h
    subst h1; subst h2
    refine ⟨rfl, ?_, rfl⟩
    intro hnil
    exact hne (by simp [hnil])

/-- C4 witness: with a grade-8 row, the Grade 8 Admin role and a
non-empty query, the agent is invoked on exactly the filtered table,
which is non-empty. -/
theorem main_invokes_agent_on_filtered_witness :
    [sampleA] = (filter_data_by_role [sampleA, sampleB] "Grade 8 Admin").rows ∧
    [sampleA] ≠ ([] : List StudentRecord) ∧ "hi" = "hi" :=
  main_invokes_agent_on_filtered _ "Grade 8 Admin" "hi" _ _ (by rfl)

/-- C5: `get_ai_response` appends to the conversation history exactly
when the agent invocation succeeds: on success the history gains one
`HumanMessage` (the question) then one `AIMessage` (the answer), in
that order, and the answer is returned; on an agent failure the
history is unchanged and the error-sentinel message is returned in
place of an answer. -/
theorem get_ai_response_history (agent_outcome : AgentOutcome)
    (query : String) (chat_history : List ChatMessage) :
    (∀ output, agent_outcome = Except.ok output →
      get_ai_response agent_outcome query chat_history =
        (output,
         chat_history ++ [ChatMessage.human query, ChatMessage.ai output])) ∧
    (∀ e, agent_outcome = Except.error e →
      get_ai_response agent_outcome query chat_history =
        ("Error processing query.", chat_history)) := by
  constructor <;> intro x hx <;> subst hx <;> rfl

/-- C5 witness: on a successful answer the history gains exactly the
human question and the AI answer, in that order. -/
theorem get_ai_response_history_witness :
    get_ai_response (Except.ok "42") "q" [] =
      ("42", [ChatMessage.human "q", ChatMessage.ai "42"]) := by
  have h := get_ai_response_history (Except.ok "42") "q" []
  simpa using h.1 "42" rfl

/-- C10: `get_ai_response` never propagates the agent's exception: for
every table-independent query turn, whenever the agent invocation
raises (any exception message), the function returns normally with the
fixed sentinel string `"Error processing query."` as the answer the
caller displays. -/
theorem get_ai_response_catches (agent_outcome : AgentOutcome)
    (query : String) (chat_history : List ChatMessage) (e : String)
    (h : agent_outcome = Except.error e) :
    (get_ai_response agent_outcome query chat_history).1 =
      "Error processing query." := by
  subst h; rfl

/-- C10 witness: a concrete raised exception yields the sentinel
string. -/
theorem get_ai_response_catches_witness :
    (get_ai_response (Except.error "boom") "q" []).1 =
      "Error processing query." :=
  get_ai_response_catches (Except.error "boom") "q" [] "boom" rfl

/-- C8: for every source record list in which some record's date
string fails to parse, `load_data` returns a table of the same length
(the load does not fail); every record keeps all its non-date fields
unchanged and gets the parsed date, and the record with the
unparseable date gets the missing marker `none`. -/
theorem load_data_coerces_bad_date (parse : String → Option Nat)
    (data : List RawRecord) (i : Nat) (hi : i < data.length)
    (hbad : parse (data.get ⟨i, hi⟩).quiz_date = none) :
    (load_data parse data).length = data.length ∧
    (∀ (j : Nat) (hj : j < data.length)
        (hj' : j < (load_data parse data).length),
      ((load_data parse data).get ⟨j, hj'⟩).student_id
          = (data.get ⟨j, hj⟩).student_id ∧
      ((load_data parse data).get ⟨j, hj'⟩).name = (data.get ⟨j, hj⟩).name ∧
      ((load_data parse data).get ⟨j, hj'⟩).grade = (data.get ⟨j, hj⟩).grade ∧
      ((load_data parse data).get ⟨j, hj'⟩).«class»
          = (data.get ⟨j, hj⟩).«class» ∧
      ((load_data parse data).get ⟨j, hj'⟩).region
          = (data.get ⟨j, hj⟩).region ∧
      ((load_data parse data).get ⟨j, hj'⟩).quiz_score
          = (data.get ⟨j, hj⟩).quiz_score ∧
      ((load_data parse data).get ⟨j, hj'⟩).quiz_date
          = parse (data.get ⟨j, hj⟩).quiz_date) ∧
    (∀ hi' : i < (load_data parse data).length,
      ((load_data parse data).get ⟨i, hi'⟩).quiz_date = none) := by
  refine ⟨by simp [load_data], ?_, ?_⟩
  · intro j hj hj'
    simp [load_data, convert_record]
  · intro hi'
    simpa [load_data, convert_record] using hbad

/-- C8 witness: a two-record file whose second record's date string is
unparseable loads without failure; the second record's date becomes
`none` while its other fields and the first record are preserved. -/
theorem load_data_coerces_bad_date_witness :
    (load_data parse0 [rawA, rawB]).length = 2 ∧
    ((load_data parse0 [rawA, rawB]).get ⟨1, by simp [load_data]⟩).quiz_date
      = none ∧
    ((load_data parse0 [rawA, rawB]).get ⟨1, by simp [load_data]⟩).name
      = "b" ∧
    ((load_data parse0 [rawA, rawB]).get ⟨0, by simp [load_data]⟩).quiz_date
      = some 20250701 := by
  have h := load_data_coerces_bad_date parse0 [rawA, rawB] 1 (by decide)
    (by simp [parse0, rawA, rawB])
  refine ⟨h.1, h.2.2 (by simp [load_data]), ?_, ?_⟩
  · exact ((h.2.1 1 (by decide) (by simp [load_data])).2.1)
  · have h0 := (h.2.1 0 (by decide) (by simp [load_data])).2.2.2.2.2.2
    simpa [parse0, rawA] using h0

end Dumroo
